import Mathlib

/-!
Shallow embedding of the roll-call retrieval tool of the wa-leg-mcp
repository, covering:

  src/wa_leg_mcp/tools/roll_call_tools.py   (get_roll_calls, the tool)
  src/wa_leg_mcp/clients/wsl_client.py      (WSLClient.get_roll_calls, the shim)

Python strings are modelled as lists of an abstract character type that
distinguishes the character classes the code branches on: decimal digits
(accepted by both str.isdigit and int), other digit characters such as
superscripts (accepted by str.isdigit but rejected by int, the source of
the ValueError branch), the space character, other whitespace, and
everything else.  Python values flowing through the normalization
pipeline are modelled by the inductive PVal; dictionaries are association
lists looked up on the first matching key.  Python exceptions are
modelled by the Except monad over PyErr, with a kind field separating
ValueError from the other exception classes, mirroring the two except
clauses of the tool.
-/

/-- Abstract model of one Python character, keeping exactly the
distinctions the embedded code observes. -/
inductive PChar where
  | dec (d : Nat)
  | odigit
  | spc
  | wsp
  | sym (c : Char)
deriving DecidableEq, Repr

/-- Model of a Python string. -/
abbrev PStr := List PChar

/-- Conversion of a Lean string literal into the character model, used to
embed the string literals of the source. -/
def charToP (c : Char) : PChar :=
  if c.isDigit then PChar.dec (c.toNat - 48)
  else if c = ' ' then PChar.spc
  else if c.isWhitespace then PChar.wsp
  else PChar.sym c

/-- Embedding of a Lean string literal as a PStr. -/
def lit (s : String) : PStr := s.data.map charToP

/-- The apostrophe character, written by code point. -/
def quoteChar : PChar := PChar.sym (Char.ofNat 39)

/-- A string literal wrapped in apostrophes, as Python repr does for
strings. -/
def quoted (s : String) : PStr := quoteChar :: (lit s ++ [quoteChar])

/-- Model of the Python str.isdigit test on one character. -/
def pyIsDigit (c : PChar) : Bool :=
  match c with
  | PChar.dec _ => true
  | PChar.odigit => true
  | _ => false

/-- Model of the Python whitespace test on one character. -/
def pyIsSpace (c : PChar) : Bool :=
  match c with
  | PChar.spc => true
  | PChar.wsp => true
  | _ => false

/-- Model of Python str.strip with no arguments: drop whitespace from
both ends. -/
def pyStrip (s : PStr) : PStr :=
  ((s.dropWhile pyIsSpace).reverse.dropWhile pyIsSpace).reverse

/-- Helper for pySplitWs: walks the string keeping the current token in
an accumulator, reversed. -/
def splitWsAux : PStr → PStr → List PStr
  | [], acc => if acc = [] then [] else [acc.reverse]
  | c :: rest, acc =>
      if pyIsSpace c then
        if acc = [] then splitWsAux rest []
        else acc.reverse :: splitWsAux rest []
      else splitWsAux rest (c :: acc)

/-- Model of Python str.split with no arguments: split on runs of
whitespace, discarding empty pieces. -/
def pySplitWs (s : PStr) : List PStr := splitWsAux s []

/-- Lines 71 to 77 of roll_call_tools.py: strip the input, take the last
whitespace token when the stripped input contains a space, then keep the
digit characters only. -/
def canonDigits (bill_number : PStr) : PStr :=
  let s := pyStrip bill_number
  let s2 := if PChar.spc ∈ s then (pySplitWs s).getLastD [] else s
  s2.filter pyIsDigit

/-- Kinds of Python exceptions raised by the embedded code. -/
inductive PyErrKind where
  | valueError
  | typeError
  | attributeError
deriving DecidableEq, Repr

/-- A raised Python exception: its class kind and its str message. -/
structure PyErr where
  kind : PyErrKind
  msg : PStr
deriving DecidableEq, Repr

/-- Value of a decimal digit character; zero on the other classes, which
the int parser rejects before reading values. -/
def pDigitVal (c : PChar) : Nat :=
  match c with
  | PChar.dec d => d
  | _ => 0

/-- Test that a character is a decimal digit, the class the Python int
constructor accepts. -/
def pIsDec (c : PChar) : Bool :=
  match c with
  | PChar.dec _ => true
  | _ => false

/-- Model of the Python int constructor on a string at line 90: succeeds
on a non-empty string of decimal digits; raises ValueError on the empty
string and on digit characters outside the decimal class, which
str.isdigit accepts but int rejects. -/
def pyInt (s : PStr) : Except PyErr Int :=
  if s ≠ [] ∧ s.all pIsDec then
    Except.ok (Int.ofNat (s.foldl (fun acc c => 10 * acc + pDigitVal c) 0))
  else
    Except.error ⟨PyErrKind.valueError, lit "invalid literal for int with base 10"⟩

/-- Model of a Python value flowing through the pipeline: strings,
unbounded integers, lists, dictionaries as association lists with first
match winning, and None. -/
inductive PVal where
  | str (s : PStr)
  | int (n : Int)
  | list (xs : List PVal)
  | dict (xs : List (PStr × PVal))
  | none
deriving Repr

/-- Model of dict.get with a default: first entry whose key matches. -/
def lookupD : List (PStr × PVal) → PStr → PVal → PVal
  | [], _, dflt => dflt
  | (k, v) :: rest, key, dflt => if k = key then v else lookupD rest key dflt

/-- Model of Python truthiness on the values of the model. -/
def pyTruthy (v : PVal) : Bool :=
  match v with
  | PVal.str s => !s.isEmpty
  | PVal.int n => n != 0
  | PVal.list xs => !xs.isEmpty
  | PVal.dict xs => !xs.isEmpty
  | PVal.none => false

/-- Python type name of a value, used inside exception messages. -/
def pyTypeName (v : PVal) : String :=
  match v with
  | PVal.str _ => "str"
  | PVal.int _ => "int"
  | PVal.list _ => "list"
  | PVal.dict _ => "dict"
  | PVal.none => "NoneType"

/-- Model of Python len: defined on strings, lists and dictionaries;
raises TypeError elsewhere. -/
def pyLen (v : PVal) : Except PyErr Nat :=
  match v with
  | PVal.str s => Except.ok s.length
  | PVal.list xs => Except.ok xs.length
  | PVal.dict xs => Except.ok xs.length
  | _ => Except.error ⟨PyErrKind.typeError,
      lit "object of type " ++ quoted (pyTypeName v) ++ lit " has no len"⟩

/-- Model of iterating a Python value into a list of values: lists yield
their elements, strings their one-character strings, dictionaries their
keys; integers and None raise TypeError. -/
def pyIterList (v : PVal) : Except PyErr (List PVal) :=
  match v with
  | PVal.list xs => Except.ok xs
  | PVal.str s => Except.ok (s.map (fun c => PVal.str [c]))
  | PVal.dict xs => Except.ok (xs.map (fun kv => PVal.str kv.1))
  | _ => Except.error ⟨PyErrKind.typeError,
      quoted (pyTypeName v) ++ lit " object is not iterable"⟩

/-- The AttributeError raised when dict.get is called on a value that is
not a dictionary. -/
def attrGetErr (v : PVal) : PyErr :=
  ⟨PyErrKind.attributeError, quoted (pyTypeName v) ++ lit " object has no attribute get"⟩

/-- Decimal digit characters of a natural number. -/
def natToPStr (n : Nat) : PStr :=
  (Nat.toDigits 10 n).map (fun c => PChar.dec (c.toNat - 48))

/-- Decimal rendering of an integer, with a leading minus sign character
when negative. -/
def intToPStr (n : Int) : PStr :=
  if n < 0 then PChar.sym (Char.ofNat 45) :: natToPStr n.natAbs else natToPStr n.toNat

mutual

/-- Model of Python repr on the values of the model: strings quoted,
integers in decimal, None as the literal word, lists and dictionaries
with their delimiters and comma-separated reprs. -/
def pyReprVal : PVal → PStr
  | PVal.str s => quoteChar :: (s ++ [quoteChar])
  | PVal.int n => intToPStr n
  | PVal.none => lit "None"
  | PVal.list xs => PChar.sym (Char.ofNat 91) :: (pyReprList xs ++ [PChar.sym (Char.ofNat 93)])
  | PVal.dict xs => PChar.sym (Char.ofNat 123) :: (pyReprDict xs ++ [PChar.sym (Char.ofNat 125)])

/-- Comma-separated reprs of the elements of a list. -/
def pyReprList : List PVal → PStr
  | [] => []
  | [x] => pyReprVal x
  | x :: y :: rest => pyReprVal x ++ lit ", " ++ pyReprList (y :: rest)

/-- Comma-separated reprs of the entries of a dictionary. -/
def pyReprDict : List (PStr × PVal) → PStr
  | [] => []
  | [(k, v)] => (quoteChar :: (k ++ [quoteChar])) ++ lit ": " ++ pyReprVal v
  | (k, v) :: e :: rest =>
      (quoteChar :: (k ++ [quoteChar])) ++ lit ": " ++ pyReprVal v ++ lit ", " ++ pyReprDict (e :: rest)

end

/-- Model of the Python str constructor on a value: identity on strings,
repr on everything else, matching str semantics on the modelled types. -/
def pyStrOfVal (v : PVal) : PStr :=
  match v with
  | PVal.str s => s
  | _ => pyReprVal v

/-- One normalized individual vote, lines 135 to 140 of
roll_call_tools.py: the dictionary built for each vote entry.  The
district is passed through str, the other three fields keep the looked-up
value unchanged. -/
structure FormattedVote where
  legislator_name : PVal
  vote : PVal
  district : PStr
  party : PVal
deriving Repr

/-- One normalized roll call, lines 142 to 151 of roll_call_tools.py:
the dictionary appended to formatted_roll_calls for each fetched
record. -/
structure FormattedRollCall where
  sequence_number : PVal
  date : PVal
  description : PVal
  yea_votes : PVal
  nay_votes : PVal
  absent_votes : PVal
  excused_votes : PVal
  votes : List FormattedVote
deriving Repr

/-- Lines 127 to 132 of roll_call_tools.py: a dict votes payload is
unwrapped at the array_of_vote key with an empty-list default, a bare
list passes through, anything else becomes the empty list. -/
def extractVotesArray (votes_data : PVal) : PVal :=
  match votes_data with
  | PVal.dict d => lookupD d (lit "array_of_vote") (PVal.list [])
  | PVal.list _ => votes_data
  | _ => PVal.list []

/-- Lines 135 to 140 of roll_call_tools.py: build one FormattedVote from
a vote entry; a non-dictionary entry raises AttributeError at the first
get call. -/
def formatVote (v : PVal) : Except PyErr FormattedVote :=
  match v with
  | PVal.dict d =>
      Except.ok ⟨lookupD d (lit "name") (PVal.str []),
                 lookupD d (lit "vote_value") (PVal.str []),
                 pyStrOfVal (lookupD d (lit "district") (PVal.str [])),
                 lookupD d (lit "party") (PVal.str [])⟩
  | _ => Except.error (attrGetErr v)

/-- The loop at line 134 of roll_call_tools.py over the vote entries,
left to right, stopping at the first raised exception. -/
def formatVotes : List PVal → Except PyErr (List FormattedVote)
  | [] => Except.ok []
  | v :: rest =>
      match formatVote v with
      | Except.error e => Except.error e
      | Except.ok fv =>
          match formatVotes rest with
          | Except.error e => Except.error e
          | Except.ok fvs => Except.ok (fv :: fvs)

/-- Lines 142 to 151 of roll_call_tools.py: the record dictionary built
from the fetched record d and the normalized votes list. -/
def mkFormatted (d : List (PStr × PVal)) (votes_list : List FormattedVote) : FormattedRollCall :=
  ⟨lookupD d (lit "sequence_number") (PVal.int 0),
   lookupD d (lit "vote_date") (PVal.str []),
   lookupD d (lit "motion") (PVal.str []),
   lookupD d (lit "yea_count") (PVal.int 0),
   lookupD d (lit "nay_count") (PVal.int 0),
   lookupD d (lit "absent_count") (PVal.int 0),
   lookupD d (lit "excused_count") (PVal.int 0),
   votes_list⟩

/-- Lines 115 to 151 of roll_call_tools.py: normalize one fetched roll
call record; a non-dictionary record raises AttributeError at the first
get call, and exceptions from the vote loop propagate. -/
def formatOne (rc : PVal) : Except PyErr FormattedRollCall :=
  match rc with
  | PVal.dict d =>
      let votes_data := lookupD d (lit "votes") (PVal.dict [])
      let votes_array := extractVotesArray votes_data
      match pyIterList votes_array with
      | Except.error e => Except.error e
      | Except.ok vs =>
          match formatVotes vs with
          | Except.error e => Except.error e
          | Except.ok votes_list => Except.ok (mkFormatted d votes_list)
  | _ => Except.error (attrGetErr rc)

/-- The loop at line 115 of roll_call_tools.py over the fetched records,
left to right, stopping at the first raised exception. -/
def formatAll : List PVal → Except PyErr (List FormattedRollCall)
  | [] => Except.ok []
  | rc :: rest =>
      match formatOne rc with
      | Except.error e => Except.error e
      | Except.ok f =>
          match formatAll rest with
          | Except.error e => Except.error e
          | Except.ok fs => Except.ok (f :: fs)

/-- The sort key of line 154 of roll_call_tools.py on an assembled
record, read as an integer; the sort comparison is only reached on
integer keys, other keys are defaulted to zero here and guarded by
allIntKeys at the call site. -/
def intKeyD (x : FormattedRollCall) : Int :=
  match x.sequence_number with
  | PVal.int n => n
  | _ => 0

/-- Test that every assembled record carries an integer sequence number,
the only case in which the Python comparisons of the sort succeed. -/
def allIntKeys (l : List FormattedRollCall) : Bool :=
  l.all (fun x => match x.sequence_number with | PVal.int _ => true | _ => false)

/-- Insertion of one record into a list, before the first record whose
key is greater than or equal to its own: the unique stable placement. -/
def insertRC (x : FormattedRollCall) : List FormattedRollCall → List FormattedRollCall
  | [] => [x]
  | y :: ys => if intKeyD x ≤ intKeyD y then x :: y :: ys else y :: insertRC x ys

/-- Stable sort of the assembled records ascending by integer key: the
unique stable sort, hence the function computed by list.sort at line 154
when every key is an integer. -/
def sortBySeq : List FormattedRollCall → List FormattedRollCall
  | [] => []
  | x :: xs => insertRC x (sortBySeq xs)

/-- Model of list.sort with the key of line 154: with integer keys it is
the stable sort; with zero or one element no comparison runs and the list
is returned unchanged; otherwise a comparison between values of
different, non-integer types raises TypeError.  Comparisons between two
non-integer values of the same orderable type are out of the scope of
this model and also mapped to TypeError; no fetched record shape used in
the claims produces them. -/
def pySortRC (l : List FormattedRollCall) : Except PyErr (List FormattedRollCall) :=
  if allIntKeys l then Except.ok (sortBySeq l)
  else if l.length ≤ 1 then Except.ok l
  else Except.error ⟨PyErrKind.typeError,
      lit "comparison not supported between instances of mixed types"⟩

/-- Response metadata mapping; optional fields model keys that some
envelopes carry and others omit. -/
structure MetadataV where
  api_call : PStr
  tool_name : Option PStr
  message : Option PStr
  count : Option Nat
deriving Repr

/-- The data mapping of a success envelope, lines 101 to 105 and 158 to
162 of roll_call_tools.py. -/
structure RCData where
  bill_number : PStr
  biennium : PStr
  roll_calls : List FormattedRollCall
deriving Repr

/-- The uniform response envelope returned by the tool; optional fields
model keys present in some envelopes only. -/
structure Envelope where
  success : Bool
  data : Option RCData
  error : Option PStr
  error_type : Option PStr
  metadata : MetadataV
deriving Repr

/-- Lines 80 to 88 of roll_call_tools.py: the validation envelope for an
identifier with no digits. -/
def validationFormatEnvelope (bn : PStr) : Envelope :=
  ⟨false, none,
   some (lit "Invalid bill number format: " ++ bn ++ lit ". Expected format: " ++
         quoted "HB 1234" ++ lit ", " ++ quoted "SB 5678" ++ lit ", or " ++ quoted "1234"),
   some (lit "validation"),
   ⟨lit "GetRollCalls", some (lit "get_roll_calls"), none, none⟩⟩

/-- Lines 171 to 179 of roll_call_tools.py: the validation envelope of
the ValueError handler. -/
def valueErrorEnvelope (bn : PStr) : Envelope :=
  ⟨false, none,
   some (lit "Invalid bill number: " ++ bn ++ lit ". Must be a valid number."),
   some (lit "validation"),
   ⟨lit "GetRollCalls", some (lit "get_roll_calls"), none, none⟩⟩

/-- Lines 99 to 110 of roll_call_tools.py: the success envelope for an
absent or empty fetch result. -/
def emptyEnvelope (bn bien : PStr) : Envelope :=
  ⟨true, some ⟨bn, bien, []⟩, none, none,
   ⟨lit "GetRollCalls", none,
    some (lit "No roll calls found for bill " ++ bn ++ lit " in biennium " ++ bien),
    none⟩⟩

/-- Lines 156 to 167 of roll_call_tools.py: the success envelope with the
sorted records and their count. -/
def successEnvelope (bn bien : PStr) (rcs : List FormattedRollCall) : Envelope :=
  ⟨true, some ⟨bn, bien, rcs⟩, none, none,
   ⟨lit "GetRollCalls", none, none, some rcs.length⟩⟩

/-- Lines 182 to 190 of roll_call_tools.py: the envelope of the generic
exception handler, embedding the str of the exception. -/
def unexpectedEnvelope (msg : PStr) : Envelope :=
  ⟨false, none,
   some (lit "Failed to fetch roll calls: " ++ msg),
   some (lit "unexpected"),
   ⟨lit "GetRollCalls", some (lit "get_roll_calls"), none, none⟩⟩

/-- Lines 67 to 68 of roll_call_tools.py: a falsy biennium argument, None
or the empty string, is replaced by the value of the current-biennium
resolver.  The resolver get_current_biennium lives in
wa_leg_mcp/utils/formatters.py, outside the given sources; following the
specification it returns a biennium string, modelled here as the
parameter cur threaded through the tool. -/
def resolveBiennium (cur : PStr) (biennium : Option PStr) : PStr :=
  match biennium with
  | Option.none => cur
  | Option.some b => if b = [] then cur else b

/-- Lines 98 to 167 of roll_call_tools.py: everything after the fetch.
A falsy fetch result, Python None here modelled as Option.none or any
falsy value, returns the empty envelope before len runs; otherwise the
records are iterated, normalized, sorted and wrapped, any raised
exception propagating to the handlers of the caller. -/
def handleFetched (bn bien : PStr) (rcd : Option PVal) : Except PyErr Envelope :=
  match rcd with
  | Option.none => Except.ok (emptyEnvelope bn bien)
  | Option.some v =>
      if pyTruthy v then
        match pyLen v with
        | Except.error e => Except.error e
        | Except.ok n =>
            if n = 0 then Except.ok (emptyEnvelope bn bien)
            else
              match pyIterList v with
              | Except.error e => Except.error e
              | Except.ok items =>
                  match formatAll items with
                  | Except.error e => Except.error e
                  | Except.ok formatted =>
                      match pySortRC formatted with
                      | Except.error e => Except.error e
                      | Except.ok sorted => Except.ok (successEnvelope bn bien sorted)
      else Except.ok (emptyEnvelope bn bien)

/-- Lines 65 to 167 of roll_call_tools.py: the body of the try block.
The fetch collaborator wsl_client.get_roll_calls is the parameter fetch;
it returns an optional value and raises nothing, which the shim
embedding below justifies. -/
def toolBody (cur : PStr) (fetch : PStr → Int → Option PVal) (bill_number : PStr)
    (biennium : Option PStr) : Except PyErr Envelope :=
  let bien := resolveBiennium cur biennium
  let ds := canonDigits bill_number
  if ds = [] then Except.ok (validationFormatEnvelope bill_number)
  else
    match pyInt ds with
    | Except.error e => Except.error e
    | Except.ok n => handleFetched bill_number bien (fetch bien n)

/-- Lines 169 to 190 of roll_call_tools.py: the two except clauses, a
ValueError mapping to the validation envelope and any other exception to
the unexpected envelope. -/
def finishEnvelope (bn : PStr) (r : Except PyErr Envelope) : Envelope :=
  match r with
  | Except.ok env => env
  | Except.error e =>
      if e.kind = PyErrKind.valueError then valueErrorEnvelope bn
      else unexpectedEnvelope e.msg

/-- Lines 16 to 190 of roll_call_tools.py: the tool get_roll_calls,
parameterized over the current-biennium resolver value and the fetch
collaborator. -/
def get_roll_calls (cur : PStr) (fetch : PStr → Int → Option PVal) (bill_number : PStr)
    (biennium : Option PStr) : Envelope :=
  finishEnvelope bill_number (toolBody cur fetch bill_number biennium)

/-- Lines 317 to 333 of wsl_client.py: the shim WSLClient.get_roll_calls.
The provider parameter models the underlying wa_leg library call, which
may raise or return any value.  A raised provider exception is caught and
mapped to None; a falsy result maps to None; a truthy non-dictionary
result raises AttributeError at the get call, also caught and mapped to
None; a truthy dictionary is unwrapped at the array_of_roll_call key with
an empty-list default. -/
def WSLClient.get_roll_calls (provider : PStr → Int → Except PyErr PVal)
    (biennium : PStr) (bill_number : Int) : Option PVal :=
  match provider biennium bill_number with
  | Except.error _ => Option.none
  | Except.ok result =>
      if pyTruthy result then
        match result with
        | PVal.dict d => Option.some (lookupD d (lit "array_of_roll_call") (PVal.list []))
        | _ => Option.none
      else Option.none

/-- Reference canonicalization written from the words of the
specification, for comparison with the source-derived composition: trim
the input, if the trimmed string contains a space take the last
whitespace-delimited token, then strip every non-digit character and
parse the result as an integer. -/
def canonicalizeSpec (s : PStr) : Except PyErr Int :=
  let trimmed := pyStrip s
  let candidate := if PChar.spc ∈ trimmed then (pySplitWs trimmed).getLastD [] else trimmed
  let digits := candidate.filter pyIsDigit
  pyInt digits

/-- The envelope invariant of the specification: success mirrors the
presence of the data key, failure mirrors the presence of the error key,
exactly one of the two keys is present, a present error is a non-empty
string, and the metadata carries the api_call identifier. -/
def envOk (e : Envelope) : Prop :=
  (e.success = true ↔ e.data.isSome) ∧
  (e.success = false ↔ e.error.isSome) ∧
  (e.data.isSome ↔ e.error = Option.none) ∧
  e.error ≠ Option.some [] ∧
  e.metadata.api_call = lit "GetRollCalls"

/-- Concrete current-biennium value used by the witness instantiations. -/
def cur0 : PStr := lit "2025-26"

/-- Fetch collaborator returning an absent result on every call. -/
def fetchNone : PStr → Int → Option PVal := fun _ _ => Option.none

/-- Fetch collaborator returning a truthy integer, on which len raises
TypeError inside the tool. -/
def fetchInt5 : PStr → Int → Option PVal := fun _ _ => Option.some (PVal.int 5)

/-- The TypeError raised by len on an integer, for the witness
instantiations. -/
def intLenErr : PyErr :=
  ⟨PyErrKind.typeError, lit "object of type " ++ quoted "int" ++ lit " has no len"⟩

/-- The single vote entry of the end-to-end example of the
specification. -/
def sampleVote : PVal := PVal.dict
  [(lit "name", PVal.str (lit "Smith, John")), (lit "vote_value", PVal.str (lit "Yea")),
   (lit "district", PVal.int 1), (lit "party", PVal.str (lit "D"))]

/-- The single fetched record of the end-to-end example of the
specification. -/
def sampleRollCall : PVal := PVal.dict
  [(lit "sequence_number", PVal.int 1), (lit "vote_date", PVal.str (lit "2023-03-15")),
   (lit "motion", PVal.str (lit "Final Passage")), (lit "yea_count", PVal.int 65),
   (lit "nay_count", PVal.int 33), (lit "absent_count", PVal.int 0),
   (lit "excused_count", PVal.int 0),
   (lit "votes", PVal.dict [(lit "array_of_vote", PVal.list [sampleVote])])]

/-- A fetched record carrying only a sequence number, used to exercise
the sort through the whole tool. -/
def seqRec (n : Int) : PVal := PVal.dict [(lit "sequence_number", PVal.int n)]

/-- A bill identifier consisting of one digit character outside the
decimal class: str.isdigit accepts it, the int constructor rejects it. -/
def oddBill : PStr := [PChar.odigit]

/-- The ValueError raised by the int constructor. -/
def intValueErr : PyErr :=
  ⟨PyErrKind.valueError, lit "invalid literal for int with base 10"⟩

/-- Test distinguishing the two vote-payload shapes the normalization
accepts from everything else. -/
def isDictOrList (v : PVal) : Bool :=
  match v with
  | PVal.dict _ => true
  | PVal.list _ => true
  | _ => false

/-- A concrete assembled record with an integer sequence number, used by
the witness instantiations of the sort theorem. -/
def sampleFormatted : FormattedRollCall :=
  ⟨PVal.int 2, PVal.str [], PVal.str [], PVal.int 0, PVal.int 0, PVal.int 0, PVal.int 0, []⟩

/-! Helper lemmas on the stable sort. -/

theorem mem_insertRC {x a : FormattedRollCall} {l : List FormattedRollCall}
    (h : a ∈ insertRC x l) : a = x ∨ a ∈ l := by
  induction l with
  | nil =>
      simp [insertRC] at h
      exact Or.inl h
  | cons y ys ih =>
      by_cases hc : intKeyD x ≤ intKeyD y
      · rw [insertRC, if_pos hc] at h
        rcases List.mem_cons.mp h with h | h
        · exact Or.inl h
        · exact Or.inr h
      · rw [insertRC, if_neg hc] at h
        rcases List.mem_cons.mp h with h | h
        · exact Or.inr (by simp [h])
        · rcases ih h with h | h
          · exact Or.inl h
          · exact Or.inr (List.mem_cons_of_mem y h)

theorem pairwise_insertRC {x : FormattedRollCall} {l : List FormattedRollCall}
    (h : l.Pairwise (fun a b => intKeyD a ≤ intKeyD b)) :
    (insertRC x l).Pairwise (fun a b => intKeyD a ≤ intKeyD b) := by
  induction l with
  | nil => simp [insertRC]
  | cons y ys ih =>
      rcases List.pairwise_cons.mp h with ⟨hy, hys⟩
      by_cases hc : intKeyD x ≤ intKeyD y
      · rw [insertRC, if_pos hc]
        refine List.pairwise_cons.mpr ⟨?_, h⟩
        intro b hb
        rcases List.mem_cons.mp hb with rfl | hb
        · exact hc
        · exact le_trans hc (hy b hb)
      · rw [insertRC, if_neg hc]
        refine List.pairwise_cons.mpr ⟨?_, ih hys⟩
        intro b hb
        rcases mem_insertRC hb with rfl | hb
        · exact le_of_not_le hc
        · exact hy b hb

theorem sortBySeq_pairwise (l : List FormattedRollCall) :
    (sortBySeq l).Pairwise (fun a b => intKeyD a ≤ intKeyD b) := by
  induction l with
  | nil => simp [sortBySeq]
  | cons x xs ih => exact pairwise_insertRC ih

theorem filter_insertRC_of_eq {k : Int} {x : FormattedRollCall} (l : List FormattedRollCall)
    (hx : intKeyD x = k) :
    (insertRC x l).filter (fun a => intKeyD a == k) =
      x :: l.filter (fun a => intKeyD a == k) := by
  induction l with
  | nil => simp [insertRC, List.filter_cons, hx]
  | cons y ys ih =>
      by_cases hc : intKeyD x ≤ intKeyD y
      · rw [insertRC, if_pos hc]
        rw [List.filter_cons, if_pos (by simp [hx])]
      · rw [insertRC, if_neg hc]
        have hy : ¬ (intKeyD y = k) := by
          intro hk
          exact hc (by rw [hx, hk])
        rw [List.filter_cons, List.filter_cons, if_neg (by simp [hy]),
          if_neg (by simp [hy])]
        exact ih

theorem filter_insertRC_of_ne {k : Int} {x : FormattedRollCall} (l : List FormattedRollCall)
    (hx : ¬ (intKeyD x = k)) :
    (insertRC x l).filter (fun a => intKeyD a == k) =
      l.filter (fun a => intKeyD a == k) := by
  induction l with
  | nil => simp [insertRC, List.filter_cons, hx]
  | cons y ys ih =>
      by_cases hc : intKeyD x ≤ intKeyD y
      · rw [insertRC, if_pos hc]
        rw [List.filter_cons, if_neg (by simp [hx])]
      · rw [insertRC, if_neg hc]
        rw [List.filter_cons, List.filter_cons, ih]

theorem filter_sortBySeq (k : Int) (l : List FormattedRollCall) :
    (sortBySeq l).filter (fun a => intKeyD a == k) =
      l.filter (fun a => intKeyD a == k) := by
  induction l with
  | nil => rfl
  | cons x xs ih =>
      by_cases hx : intKeyD x = k
      · rw [sortBySeq, filter_insertRC_of_eq _ hx, ih, List.filter_cons,
          if_pos (by simpa using hx)]
      · rw [sortBySeq, filter_insertRC_of_ne _ hx, ih, List.filter_cons,
          if_neg (by simpa using hx)]

/-! Helper lemmas: no raise site of the normalization pipeline produces a
ValueError, so the first except clause of the tool fires for the int
conversion only. -/

theorem pyLen_not_valueError {v : PVal} {e : PyErr} (h : pyLen v = Except.error e) :
    ¬ (e.kind = PyErrKind.valueError) := by
  unfold pyLen at h
  split at h
  · exact absurd h (by simp)
  · exact absurd h (by simp)
  · exact absurd h (by simp)
  · injection h with h2
    subst h2
    simp

theorem pyIterList_not_valueError {v : PVal} {e : PyErr}
    (h : pyIterList v = Except.error e) : ¬ (e.kind = PyErrKind.valueError) := by
  unfold pyIterList at h
  split at h
  · exact absurd h (by simp)
  · exact absurd h (by simp)
  · exact absurd h (by simp)
  · injection h with h2
    subst h2
    simp

theorem formatVote_not_valueError {v : PVal} {e : PyErr}
    (h : formatVote v = Except.error e) : ¬ (e.kind = PyErrKind.valueError) := by
  unfold formatVote at h
  split at h
  · exact absurd h (by simp)
  · injection h with h2
    subst h2
    simp [attrGetErr]

theorem formatVotes_not_valueError {vs : List PVal} {e : PyErr}
    (h : formatVotes vs = Except.error e) : ¬ (e.kind = PyErrKind.valueError) := by
  induction vs with
  | nil => exact absurd h (by simp [formatVotes])
  | cons v rest ih =>
      rw [formatVotes] at h
      split at h
      · next e2 heq =>
          injection h with h2
          subst h2
          exact formatVote_not_valueError heq
      · split at h
        · next e2 heq2 =>
            injection h with h2
            subst h2
            exact ih heq2
        · exact absurd h (by simp)

theorem formatOne_not_valueError {rc : PVal} {e : PyErr}
    (h : formatOne rc = Except.error e) : ¬ (e.kind = PyErrKind.valueError) := by
  unfold formatOne at h
  split at h
  · dsimp only at h
    split at h
    · next e2 heq =>
        injection h with h2
        subst h2
        exact pyIterList_not_valueError heq
    · split at h
      · next e2 heq2 =>
          injection h with h2
          subst h2
          exact formatVotes_not_valueError heq2
      · exact absurd h (by simp)
  · injection h with h2
    subst h2
    simp [attrGetErr]

theorem formatAll_not_valueError {rcs : List PVal} {e : PyErr}
    (h : formatAll rcs = Except.error e) : ¬ (e.kind = PyErrKind.valueError) := by
  induction rcs with
  | nil => exact absurd h (by simp [formatAll])
  | cons rc rest ih =>
      rw [formatAll] at h
      split at h
      · next e2 heq =>
          injection h with h2
          subst h2
          exact formatOne_not_valueError heq
      · split at h
        · next e2 heq2 =>
            injection h with h2
            subst h2
            exact ih heq2
        · exact absurd h (by simp)

theorem pySortRC_not_valueError {l : List FormattedRollCall} {e : PyErr}
    (h : pySortRC l = Except.error e) : ¬ (e.kind = PyErrKind.valueError) := by
  unfold pySortRC at h
  split at h
  · exact absurd h (by simp)
  · split at h
    · exact absurd h (by simp)
    · injection h with h2
      subst h2
      simp

theorem handleFetched_not_valueError {bn bien : PStr} {rcd : Option PVal} {e : PyErr}
    (h : handleFetched bn bien rcd = Except.error e) : ¬ (e.kind = PyErrKind.valueError) := by
  unfold handleFetched at h
  split at h
  · exact absurd h (by simp)
  · split at h
    · split at h
      · next e2 heq =>
          injection h with h2
          subst h2
          exact pyLen_not_valueError heq
      · split at h
        · exact absurd h (by simp)
        · split at h
          · next e2 heq2 =>
              injection h with h2
              subst h2
              exact pyIterList_not_valueError heq2
          · split at h
            · next e2 heq3 =>
                injection h with h2
                subst h2
                exact formatAll_not_valueError heq3
            · split at h
              · next e2 heq4 =>
                  injection h with h2
                  subst h2
                  exact pySortRC_not_valueError heq4
              · exact absurd h (by simp)
    · exact absurd h (by simp)

/-! Helper lemmas: every envelope the tool builds satisfies the envelope
invariant. -/

theorem pstr_append_ne_nil {pre : PStr} (rest : PStr) (h : pre ≠ []) : pre ++ rest ≠ [] := by
  cases pre with
  | nil => exact absurd rfl h
  | cons c t => simp

theorem envOk_validationFormat (bn : PStr) : envOk (validationFormatEnvelope bn) := by
  refine ⟨by simp [validationFormatEnvelope], by simp [validationFormatEnvelope],
    by simp [validationFormatEnvelope], ?_, rfl⟩
  intro hc
  have h2 := Option.some.inj hc
  exact absurd (List.append_eq_nil.mp h2).2 (by decide)

theorem envOk_valueError (bn : PStr) : envOk (valueErrorEnvelope bn) := by
  refine ⟨by simp [valueErrorEnvelope], by simp [valueErrorEnvelope],
    by simp [valueErrorEnvelope], ?_, rfl⟩
  intro hc
  have h2 := Option.some.inj hc
  exact absurd (List.append_eq_nil.mp h2).2 (by decide)

theorem envOk_unexpected (msg : PStr) : envOk (unexpectedEnvelope msg) := by
  refine ⟨by simp [unexpectedEnvelope], by simp [unexpectedEnvelope],
    by simp [unexpectedEnvelope], ?_, rfl⟩
  intro hc
  have h2 := Option.some.inj hc
  exact absurd (List.append_eq_nil.mp h2).1 (by decide)

theorem envOk_empty (bn bien : PStr) : envOk (emptyEnvelope bn bien) := by
  exact ⟨by simp [emptyEnvelope], by simp [emptyEnvelope], by simp [emptyEnvelope],
    by simp [emptyEnvelope], rfl⟩

theorem envOk_success (bn bien : PStr) (rcs : List FormattedRollCall) :
    envOk (successEnvelope bn bien rcs) := by
  exact ⟨by simp [successEnvelope], by simp [successEnvelope], by simp [successEnvelope],
    by simp [successEnvelope], rfl⟩

theorem handleFetched_ok_envOk {bn bien : PStr} {rcd : Option PVal} {env : Envelope}
    (h : handleFetched bn bien rcd = Except.ok env) : envOk env := by
  unfold handleFetched at h
  split at h
  · injection h with h2
    subst h2
    exact envOk_empty bn bien
  · split at h
    · split at h
      · exact absurd h (by simp)
      · split at h
        · injection h with h2
          subst h2
          exact envOk_empty bn bien
        · split at h
          · exact absurd h (by simp)
          · split at h
            · exact absurd h (by simp)
            · split at h
              · exact absurd h (by simp)
              · injection h with h2
                subst h2
                exact envOk_success bn bien _
    · injection h with h2
      subst h2
      exact envOk_empty bn bien

theorem toolBody_ok_envOk {cur : PStr} {fetch : PStr → Int → Option PVal} {bn : PStr}
    {bi : Option PStr} {env : Envelope}
    (h : toolBody cur fetch bn bi = Except.ok env) : envOk env := by
  unfold toolBody at h
  dsimp only at h
  split at h
  · injection h with h2
    subst h2
    exact envOk_validationFormat bn
  · split at h
    · exact absurd h (by simp)
    · exact handleFetched_ok_envOk h

theorem handleFetched_data_biennium {bn bien : PStr} {rcd : Option PVal} {env : Envelope}
    {d : RCData} (h : handleFetched bn bien rcd = Except.ok env) (hd : env.data = some d) :
    d.biennium = bien := by
  unfold handleFetched at h
  split at h
  · injection h with h2
    subst h2
    rw [show (emptyEnvelope bn bien).data = some ⟨bn, bien, []⟩ from rfl] at hd
    rw [← Option.some.inj hd]
  · split at h
    · split at h
      · exact absurd h (by simp)
      · split at h
        · injection h with h2
          subst h2
          rw [show (emptyEnvelope bn bien).data = some ⟨bn, bien, []⟩ from rfl] at hd
          rw [← Option.some.inj hd]
        · split at h
          · exact absurd h (by simp)
          · split at h
            · exact absurd h (by simp)
            · split at h
              · exact absurd h (by simp)
              · next sorted heq =>
                  injection h with h2
                  subst h2
                  rw [show (successEnvelope bn bien sorted).data
                        = some ⟨bn, bien, sorted⟩ from rfl] at hd
                  rw [← Option.some.inj hd]
    · injection h with h2
      subst h2
      rw [show (emptyEnvelope bn bien).data = some ⟨bn, bien, []⟩ from rfl] at hd
      rw [← Option.some.inj hd]

/-! The claim theorems. -/

/-- C1: for every input, the envelope returned by get_roll_calls contains
success together with exactly one of a data key and a non-empty-string
error key, success is true exactly when data is present, and the metadata
mapping carries the api_call identifier in every returned envelope. -/
theorem get_roll_calls_envelope_invariant (cur : PStr) (fetch : PStr → Int → Option PVal)
    (bn : PStr) (bi : Option PStr) : envOk (get_roll_calls cur fetch bn bi) := by
  unfold get_roll_calls finishEnvelope
  split
  · next env heq => exact toolBody_ok_envOk heq
  · next e heq =>
      split
      · exact envOk_valueError bn
      · exact envOk_unexpected e.msg

/-- C2: the bill-identifier canonicalization of get_roll_calls equals
the reference definition written from the specification; the inputs
HB 1234, SB 1234 and 1234 all canonicalize to the integer 1234, and on
each of them the tool invokes the fetch collaborator with that same
integer. -/
theorem get_roll_calls_canonicalization :
    (∀ s : PStr, canonicalizeSpec s = pyInt (canonDigits s)) ∧
    pyInt (canonDigits (lit "HB 1234")) = Except.ok 1234 ∧
    pyInt (canonDigits (lit "SB 1234")) = Except.ok 1234 ∧
    pyInt (canonDigits (lit "1234")) = Except.ok 1234 ∧
    (∀ (cur : PStr) (fetch : PStr → Int → Option PVal) (bi : Option PStr),
      get_roll_calls cur fetch (lit "HB 1234") bi =
        finishEnvelope (lit "HB 1234")
          (handleFetched (lit "HB 1234") (resolveBiennium cur bi)
            (fetch (resolveBiennium cur bi) 1234))) ∧
    (∀ (cur : PStr) (fetch : PStr → Int → Option PVal) (bi : Option PStr),
      get_roll_calls cur fetch (lit "SB 1234") bi =
        finishEnvelope (lit "SB 1234")
          (handleFetched (lit "SB 1234") (resolveBiennium cur bi)
            (fetch (resolveBiennium cur bi) 1234))) ∧
    (∀ (cur : PStr) (fetch : PStr → Int → Option PVal) (bi : Option PStr),
      get_roll_calls cur fetch (lit "1234") bi =
        finishEnvelope (lit "1234")
          (handleFetched (lit "1234") (resolveBiennium cur bi)
            (fetch (resolveBiennium cur bi) 1234))) :=
  ⟨fun _ => rfl, rfl, rfl, rfl, fun _ _ _ => rfl, fun _ _ _ => rfl, fun _ _ _ => rfl⟩

/-- C3: an input whose canonicalization leaves no digit characters is
answered, independently of the fetch collaborator, with the validation
envelope built at lines 80 to 88 of the source. -/
theorem get_roll_calls_no_digit_validation (cur : PStr) (fetch : PStr → Int → Option PVal)
    (bn : PStr) (bi : Option PStr) (h : canonDigits bn = []) :
    get_roll_calls cur fetch bn bi = validationFormatEnvelope bn := by
  unfold get_roll_calls toolBody
  dsimp only
  rw [h]
  simp [finishEnvelope]

/-- Witness: the input INVALID has no digits and produces the validation
envelope. -/
theorem get_roll_calls_no_digit_validation_witness :
    canonDigits (lit "INVALID") = [] ∧
    get_roll_calls cur0 fetchNone (lit "INVALID") Option.none
      = validationFormatEnvelope (lit "INVALID") :=
  ⟨rfl, get_roll_calls_no_digit_validation cur0 fetchNone (lit "INVALID") Option.none rfl⟩

/-- C4: when the canonicalized digit string is non-empty yet the int
conversion raises, the ValueError handler answers with the second
validation envelope, lines 171 to 179 of the source. -/
theorem get_roll_calls_int_failure_validation (cur : PStr) (fetch : PStr → Int → Option PVal)
    (bn : PStr) (bi : Option PStr) (e : PyErr) (h1 : canonDigits bn ≠ [])
    (h2 : pyInt (canonDigits bn) = Except.error e) :
    get_roll_calls cur fetch bn bi = valueErrorEnvelope bn := by
  have hkind : e.kind = PyErrKind.valueError := by
    unfold pyInt at h2
    split at h2
    · exact absurd h2 (by simp)
    · injection h2 with h3
      rw [← h3]
  unfold get_roll_calls toolBody
  dsimp only
  rw [if_neg h1, h2]
  simp [finishEnvelope, hkind]

/-- Witness: a bill identifier made of one non-decimal digit character
passes the digit filter yet fails the int conversion. -/
theorem get_roll_calls_int_failure_validation_witness :
    canonDigits oddBill ≠ [] ∧
    pyInt (canonDigits oddBill) = Except.error intValueErr ∧
    get_roll_calls cur0 fetchNone oddBill Option.none = valueErrorEnvelope oddBill :=
  ⟨by decide, rfl,
   get_roll_calls_int_failure_validation cur0 fetchNone oddBill Option.none intValueErr
     (by decide) rfl⟩

/-- C5: on a valid bill identifier, a fetch returning an absent result or
an empty sequence yields the success envelope with an empty roll_calls
list, the original input as bill_number, the resolved biennium, and the
explanatory metadata message; never an error envelope. -/
theorem get_roll_calls_empty_fetch_success (cur : PStr) (fetch : PStr → Int → Option PVal)
    (bn : PStr) (bi : Option PStr) (n : Int)
    (h1 : pyInt (canonDigits bn) = Except.ok n)
    (h2 : fetch (resolveBiennium cur bi) n = Option.none ∨
          fetch (resolveBiennium cur bi) n = Option.some (PVal.list [])) :
    get_roll_calls cur fetch bn bi = emptyEnvelope bn (resolveBiennium cur bi) := by
  have hne : canonDigits bn ≠ [] := by
    intro hnil
    rw [hnil] at h1
    exact absurd h1 (by simp [pyInt])
  unfold get_roll_calls toolBody
  dsimp only
  rw [if_neg hne, h1]
  dsimp only
  rcases h2 with h2 | h2 <;> rw [h2] <;> rfl

/-- Witness: the absent-result case at bill 1234. -/
theorem get_roll_calls_empty_fetch_success_witness :
    pyInt (canonDigits (lit "1234")) = Except.ok 1234 ∧
    fetchNone (resolveBiennium cur0 Option.none) 1234 = Option.none ∧
    get_roll_calls cur0 fetchNone (lit "1234") Option.none =
      emptyEnvelope (lit "1234") (resolveBiennium cur0 Option.none) :=
  ⟨rfl, rfl,
   get_roll_calls_empty_fetch_success cur0 fetchNone (lit "1234") Option.none 1234 rfl
     (Or.inl rfl)⟩

/-- C6: the end-to-end example of the specification, including the
renaming of vote_date to date and motion to description, the
stringification of the integer district, and the count metadata. -/
theorem get_roll_calls_end_to_end_example :
    get_roll_calls cur0 (fun _ _ => Option.some (PVal.list [sampleRollCall]))
        (lit "HB 1234") (Option.some (lit "2023-24")) =
      ⟨true,
       some ⟨lit "HB 1234", lit "2023-24",
         [⟨PVal.int 1, PVal.str (lit "2023-03-15"), PVal.str (lit "Final Passage"),
           PVal.int 65, PVal.int 33, PVal.int 0, PVal.int 0,
           [⟨PVal.str (lit "Smith, John"), PVal.str (lit "Yea"), lit "1",
             PVal.str (lit "D")⟩]⟩]⟩,
       Option.none, Option.none,
       ⟨lit "GetRollCalls", Option.none, Option.none, some 1⟩⟩ := by
  rfl

/-- C7: the assembled records are sorted ascending by the sequence-number
key, the sort is stable in the sense that the records carrying any fixed
key appear in the output in their input order with no secondary key, the
sort of the tool is this stable sort whenever every key is an integer,
and records fetched with keys 3, 1, 2 leave the tool ordered 1, 2, 3. -/
theorem get_roll_calls_sort_sorted_stable :
    (∀ l : List FormattedRollCall,
      (sortBySeq l).Pairwise (fun a b => intKeyD a ≤ intKeyD b)) ∧
    (∀ (l : List FormattedRollCall) (k : Int),
      (sortBySeq l).filter (fun a => intKeyD a == k) =
        l.filter (fun a => intKeyD a == k)) ∧
    (∀ l : List FormattedRollCall, allIntKeys l = true →
      pySortRC l = Except.ok (sortBySeq l)) ∧
    ((get_roll_calls cur0
        (fun _ _ => Option.some (PVal.list [seqRec 3, seqRec 1, seqRec 2]))
        (lit "1234") Option.none).data.map
          (fun d => d.roll_calls.map (fun r => r.sequence_number)) =
      some [PVal.int 1, PVal.int 2, PVal.int 3]) := by
  refine ⟨sortBySeq_pairwise, fun l k => filter_sortBySeq k l, fun l h => ?_, by rfl⟩
  unfold pySortRC
  rw [if_pos h]

/-- Witness: the integer-key hypothesis of the sort theorem at a concrete
one-record list. -/
theorem get_roll_calls_sort_sorted_stable_witness :
    allIntKeys [sampleFormatted] = true ∧
    pySortRC [sampleFormatted] = Except.ok (sortBySeq [sampleFormatted]) :=
  ⟨rfl, get_roll_calls_sort_sorted_stable.2.2.1 [sampleFormatted] rfl⟩

/-- C8: a record whose votes field is a bare sequence normalizes to
exactly the same output record as one whose votes field wraps the same
sequence under the array_of_vote key; and a votes field that is neither a
mapping nor a sequence yields an empty normalized votes list. -/
theorem get_roll_calls_votes_shape_tolerance :
    (∀ (base : List (PStr × PVal)) (V : List PVal),
      formatOne (PVal.dict ((lit "votes", PVal.list V) :: base)) =
        formatOne (PVal.dict ((lit "votes",
          PVal.dict [(lit "array_of_vote", PVal.list V)]) :: base))) ∧
    (∀ (base : List (PStr × PVal)) (v : PVal), isDictOrList v = false →
      formatOne (PVal.dict ((lit "votes", v) :: base)) =
        Except.ok (mkFormatted ((lit "votes", v) :: base) [])) := by
  constructor
  · intro base V
    rfl
  · intro base v hv
    cases v with
    | dict d => exact absurd hv (by simp [isDictOrList])
    | list xs => exact absurd hv (by simp [isDictOrList])
    | str s => rfl
    | int m => rfl
    | none => rfl

/-- Witness: an integer votes field is neither a mapping nor a sequence
and produces an empty votes list. -/
theorem get_roll_calls_votes_shape_tolerance_witness :
    isDictOrList (PVal.int 7) = false ∧
    formatOne (PVal.dict [(lit "votes", PVal.int 7)]) =
      Except.ok (mkFormatted [(lit "votes", PVal.int 7)] []) :=
  ⟨rfl, get_roll_calls_votes_shape_tolerance.2 [] (PVal.int 7) rfl⟩

/-- C9: every exception raised after a successful int conversion, that
is during the fetch-result handling and normalization pipeline, is a
non-ValueError and is caught and mapped to the unexpected-error envelope
with the exception message embedded, so nothing propagates out of the
tool; and the shim converts every provider-level exception into an
absent result. -/
theorem get_roll_calls_exception_handling :
    (∀ (bn bien : PStr) (rcd : Option PVal) (e : PyErr),
      handleFetched bn bien rcd = Except.error e → ¬ (e.kind = PyErrKind.valueError)) ∧
    (∀ (cur : PStr) (fetch : PStr → Int → Option PVal) (bn : PStr) (bi : Option PStr)
      (e : PyErr) (n : Int), pyInt (canonDigits bn) = Except.ok n →
      toolBody cur fetch bn bi = Except.error e →
      get_roll_calls cur fetch bn bi = unexpectedEnvelope e.msg) ∧
    (∀ (provider : PStr → Int → Except PyErr PVal) (bien : PStr) (m : Int) (e : PyErr),
      provider bien m = Except.error e →
      WSLClient.get_roll_calls provider bien m = Option.none) := by
  refine ⟨fun bn bien rcd e h => handleFetched_not_valueError h, ?_, ?_⟩
  · intro cur fetch bn bi e n h1 h2
    have hne : canonDigits bn ≠ [] := by
      intro hnil
      rw [hnil] at h1
      exact absurd h1 (by simp [pyInt])
    have hkind : ¬ (e.kind = PyErrKind.valueError) := by
      unfold toolBody at h2
      dsimp only at h2
      rw [if_neg hne, h1] at h2
      dsimp only at h2
      exact handleFetched_not_valueError h2
    unfold get_roll_calls finishEnvelope
    rw [h2]
    simp [hkind]
  · intro provider bien m e h
    unfold WSLClient.get_roll_calls
    rw [h]

/-- Witness: a fetch result on which len raises TypeError reaches the
unexpected-error envelope, and a raising provider makes the shim return
an absent result. -/
theorem get_roll_calls_exception_handling_witness :
    pyInt (canonDigits (lit "1234")) = Except.ok 1234 ∧
    toolBody cur0 fetchInt5 (lit "1234") Option.none = Except.error intLenErr ∧
    get_roll_calls cur0 fetchInt5 (lit "1234") Option.none =
      unexpectedEnvelope intLenErr.msg ∧
    WSLClient.get_roll_calls (fun _ _ => Except.error intLenErr) cur0 1234 = Option.none :=
  ⟨rfl, rfl,
   get_roll_calls_exception_handling.2.1 cur0 fetchInt5 (lit "1234") Option.none
     intLenErr 1234 rfl rfl,
   get_roll_calls_exception_handling.2.2 (fun _ _ => Except.error intLenErr) cur0 1234
     intLenErr rfl⟩

/-- C10: a present but empty biennium argument behaves exactly like an
absent one: the resolver value replaces it, it is the biennium passed to
the fetch collaborator, and it is the biennium appearing in the data of
the response. -/
theorem get_roll_calls_falsy_biennium_default :
    (∀ cur : PStr, resolveBiennium cur (Option.some []) = cur ∧
      resolveBiennium cur Option.none = cur) ∧
    (∀ (cur : PStr) (fetch : PStr → Int → Option PVal) (bn : PStr),
      get_roll_calls cur fetch bn (Option.some []) =
        get_roll_calls cur fetch bn Option.none) ∧
    (∀ (cur : PStr) (fetch : PStr → Int → Option PVal) (bn : PStr) (n : Int),
      pyInt (canonDigits bn) = Except.ok n →
      get_roll_calls cur fetch bn (Option.some []) =
        finishEnvelope bn (handleFetched bn cur (fetch cur n))) ∧
    (∀ (cur : PStr) (fetch : PStr → Int → Option PVal) (bn : PStr) (d : RCData),
      (get_roll_calls cur fetch bn (Option.some [])).data = some d →
      d.biennium = cur) := by
  refine ⟨fun cur => ⟨rfl, rfl⟩, fun cur fetch bn => rfl, ?_, ?_⟩
  · intro cur fetch bn n h1
    have hne : canonDigits bn ≠ [] := by
      intro hnil
      rw [hnil] at h1
      exact absurd h1 (by simp [pyInt])
    unfold get_roll_calls toolBody
    dsimp only
    rw [if_neg hne, h1]
    dsimp only
    rfl
  · intro cur fetch bn d hd
    cases ht : toolBody cur fetch bn (Option.some []) with
    | error e =>
        unfold get_roll_calls at hd
        rw [ht] at hd
        unfold finishEnvelope at hd
        dsimp only at hd
        by_cases hk : e.kind = PyErrKind.valueError
        · rw [if_pos hk] at hd
          exact absurd hd (by simp [valueErrorEnvelope])
        · rw [if_neg hk] at hd
          exact absurd hd (by simp [unexpectedEnvelope])
    | ok env =>
        unfold get_roll_calls at hd
        rw [ht] at hd
        have hd2 : env.data = some d := hd
        unfold toolBody at ht
        dsimp only at ht
        split at ht
        · injection ht with h2
          subst h2
          exact absurd hd2 (by simp [validationFormatEnvelope])
        · split at ht
          · exact absurd ht (by simp)
          · exact handleFetched_data_biennium ht hd2

/-- Witness: with an empty-string biennium, bill 1234 and an absent
fetch result, the resolver value reaches the fetch call and the response
data. -/
theorem get_roll_calls_falsy_biennium_default_witness :
    pyInt (canonDigits (lit "1234")) = Except.ok 1234 ∧
    get_roll_calls cur0 fetchNone (lit "1234") (Option.some []) =
      finishEnvelope (lit "1234") (handleFetched (lit "1234") cur0 (fetchNone cur0 1234)) ∧
    (get_roll_calls cur0 fetchNone (lit "1234") (Option.some [])).data =
      some ⟨lit "1234", cur0, []⟩ ∧
    (⟨lit "1234", cur0, []⟩ : RCData).biennium = cur0 :=
  ⟨rfl,
   get_roll_calls_falsy_biennium_default.2.2.1 cur0 fetchNone (lit "1234") 1234 rfl,
   rfl,
   get_roll_calls_falsy_biennium_default.2.2.2 cur0 fetchNone (lit "1234")
     ⟨lit "1234", cur0, []⟩ rfl⟩
